import Mathlib

/-!
Verification of the geometry serialization subsystem of fastkml
(`src/fastkml/geometry.py`): coordinate text encoding/decoding, polygon and
multi-geometry element construction and parsing, and the multi-geometry
kind dispatcher `create_multigeometry`.

Modelling conventions:
* Python floats are modelled as exact decimal numbers `PFloat` (an integer
  significand `num` and a power-of-ten denominator exponent `exp`, value
  `num / 10 ^ exp`).  The binary-double rounding of CPython and its
  round-half-to-even tie rule are not modelled; fixed-point formatting
  rounds half away from zero on the exact decimal value.  No claim in this
  development depends on tie-breaking.
* XML element trees are the mutual inductives `Elem`/`ElemList` (tag, optional
  text, children).  Attributes play no role in the verified code paths.
* Python exceptions are `Except` values; `logger.error` calls are side
  effects outside the embedding and are not modelled.
-/

namespace FastKML

/-- A decimal number standing in for a Python float: value `num / 10 ^ exp`. -/
structure PFloat where
  num : Int
  exp : Nat
deriving DecidableEq, Repr

/-- The rational value of a `PFloat` (used only in specifications). -/
def PFloat.val (x : PFloat) : ℚ := (x.num : ℚ) / (10 : ℚ) ^ x.exp

/-- A coordinate tuple as the Python code sees it: a tuple of floats whose
arity is whatever the source text produced (the code never validates it). -/
abbrev Coord := List PFloat

/-- Fixed-point rendering of a `PFloat` at `p` decimal digits, the model of
the f-string `.pf` format used by `coordinates_subelement`
(src/fastkml/geometry.py lines 129-131).  Rounds to nearest, half away from
zero, on the exact decimal value. -/
def fmtFixed (p : Nat) (x : PFloat) : String :=
  let r : Int := Int.fdiv (2 * x.num * 10 ^ p + 10 ^ x.exp) (2 * 10 ^ x.exp)
  let m : Nat := r.natAbs
  let intPart : Nat := m / 10 ^ p
  let frac : Nat := m % 10 ^ p
  let fracStr : String := toString frac
  let pad : String := String.mk (List.replicate (p - fracStr.length) '0')
  (if r < 0 then "-" else "") ++ toString intPart ++
    (if p = 0 then "" else "." ++ pad ++ fracStr)

/-- Errors arising while encoding: the `KMLWriteError` raised for invalid
dimensions, and the Python `IndexError` raised by indexing a too-short tuple
(`c[2]` on a 2-tuple). -/
inductive EncodeErr where
  | writeError (msg : String)
  | indexError
  | fuel
deriving DecidableEq, Repr

/-- Sequence a fallible function over a list, left to right, stopping at the
first raised exception (the evaluation order of Python comprehensions and
generator joins). -/
def exceptMapM {ε α β : Type} (f : α → Except ε β) : List α → Except ε (List β)
  | [] => .ok []
  | a :: l =>
    match f a with
    | .error e => .error e
    | .ok b =>
      match exceptMapM f l with
      | .error e => .error e
      | .ok r => .ok (b :: r)

/-- Python tuple indexing `c[i]`: raises `IndexError` out of range. -/
def pyGet (c : Coord) (i : Nat) : Except EncodeErr PFloat :=
  match c.get? i with
  | some x => .ok x
  | none => .error .indexError

/-- The 2-field rendering `f(c[0]),f(c[1])` of one tuple
(src/fastkml/geometry.py line 129). -/
def tupleText2 (p : Nat) (c : Coord) : Except EncodeErr String := do
  let x0 ← pyGet c 0
  let x1 ← pyGet c 1
  pure (fmtFixed p x0 ++ "," ++ fmtFixed p x1)

/-- The 3-field rendering `f(c[0]),f(c[1]),f(c[2])` of one tuple
(src/fastkml/geometry.py line 131). -/
def tupleText3 (p : Nat) (c : Coord) : Except EncodeErr String := do
  let x0 ← pyGet c 0
  let x1 ← pyGet c 1
  let x2 ← pyGet c 2
  pure (fmtFixed p x0 ++ "," ++ fmtFixed p x1 ++ "," ++ fmtFixed p x2)

/-- `coordinates_subelement` (src/fastkml/geometry.py lines 99-135), the
encoder of a coordinate sequence into the text of a `coordinates` element.
Returns the text set on the element (`none` when the sequence is falsy and no
text is set).  The dimension check looks only at `len(coords[0])`; the Python
message interpolates `repr(coords)`, which is abstracted away here. -/
def coordinates_subelement (coords : List Coord) (precision : Option Nat) :
    Except EncodeErr (Option String) :=
  match coords with
  | [] => .ok none
  | c0 :: _ =>
    let p := precision.getD 6
    if c0.length = 2 then do
      let ts ← exceptMapM (tupleText2 p) coords
      pure (some (String.intercalate " " ts))
    else if c0.length = 3 then do
      let ts ← exceptMapM (tupleText3 p) coords
      pure (some (String.intercalate " " ts))
    else .error (.writeError "Invalid dimensions in coordinates")

mutual
/-- An XML element: tag, optional text node, child elements.  Mirrors the
etree `Element` interface the geometry code consumes. -/
inductive Elem where
  | mk (tag : String) (text : Option String) (children : ElemList)
/-- Children of an element (a mutual inductive so that recursion over the
tree is structural). -/
inductive ElemList where
  | nil
  | cons (head : Elem) (tail : ElemList)
end

def Elem.tag : Elem → String
  | .mk t _ _ => t

def Elem.text : Elem → Option String
  | .mk _ tx _ => tx

def ElemList.toList : ElemList → List Elem
  | .nil => []
  | .cons c cs => c :: cs.toList

def ElemList.ofList : List Elem → ElemList
  | [] => .nil
  | c :: cs => .cons c (ofList cs)

def Elem.childList : Elem → List Elem
  | .mk _ _ cs => cs.toList

/-- `element.findall(tag)`: every child whose tag matches, in document
order. -/
def Elem.findall (e : Elem) (t : String) : List Elem :=
  e.childList.filter (fun c => c.tag = t)

/-- `element.find(tag)`: the first child whose tag matches, if any. -/
def Elem.find (e : Elem) (t : String) : Option Elem :=
  (e.findall t).head?

mutual
/-- Modelled from the spec: the element-to-text serializer
(`config.etree.tostring`) that error reporting uses ("serialize element to
text for error messages", spec section 6; the serializer itself is not under
src/).  Rendered as nested tag/text markup. -/
def Elem.tostring : Elem → String
  | .mk t tx cs => "<" ++ t ++ ">" ++ tx.getD "" ++ cs.tostringList ++ "</" ++ t ++ ">"
def ElemList.tostringList : ElemList → String
  | .nil => ""
  | .cons c cs => c.tostring ++ cs.tostringList
end

/-! ### Coordinate text parsing (the Coordinate Text Codec, decode side) -/

/-- The whitespace characters `str.split()` and `str.strip()` treat as
separators (the ASCII ones; exotic unicode spaces are out of scope). -/
def isPySpace (c : Char) : Bool :=
  c = ' ' ∨ c = '\t' ∨ c = '\n' ∨ c = '\r' ∨ c = '\x0b' ∨ c = '\x0c'

/-- `str.strip()`: drop leading and trailing whitespace. -/
def pyStrip (s : List Char) : List Char :=
  ((s.dropWhile isPySpace).reverse.dropWhile isPySpace).reverse

mutual
/-- `re.sub(", +", ",", s)`: every comma followed by one or more spaces
becomes a bare comma (src/fastkml/geometry.py line 151). -/
def commaSub : List Char → List Char
  | [] => []
  | c :: rest => if c = ',' then ',' :: commaSubSkip rest else c :: commaSub rest
/-- After a comma: skip the run of spaces, then continue scanning. -/
def commaSubSkip : List Char → List Char
  | [] => []
  | c :: rest =>
    if c = ' ' then commaSubSkip rest
    else if c = ',' then ',' :: commaSubSkip rest
    else c :: commaSub rest
end

/-- `str.split()` with no argument: split on runs of whitespace, producing no
empty tokens. -/
def pySplitWsAux : List Char → List Char → List (List Char)
  | [], acc => if acc = [] then [] else [acc.reverse]
  | c :: rest, acc =>
    if isPySpace c then
      if acc = [] then pySplitWsAux rest [] else acc.reverse :: pySplitWsAux rest []
    else pySplitWsAux rest (c :: acc)

def pySplitWs (s : List Char) : List (List Char) :=
  pySplitWsAux s []

/-- `str.split(",")`: split on commas, keeping empty fields. -/
def pySplitCommaAux : List Char → List Char → List (List Char)
  | [], acc => [acc.reverse]
  | c :: rest, acc =>
    if c = ',' then acc.reverse :: pySplitCommaAux rest []
    else pySplitCommaAux rest (c :: acc)

def pySplitComma (s : List Char) : List (List Char) :=
  pySplitCommaAux s []

/-- Digits to a natural number, most significant first. -/
def digitsToNat : List Char → Nat → Nat
  | [], acc => acc
  | c :: cs, acc => digitsToNat cs (acc * 10 + (c.toNat - 48))

/-- Python `float(string)` on the decimal strings that occur in coordinate
text: optional sign, digits with an optional fractional part, optional
exponent.  Returns `none` exactly when CPython raises `ValueError`
(`inf`/`nan` spellings, underscores and unicode digits are out of scope). -/
def parseFloat (s : List Char) : Option PFloat :=
  let sgn : Int := match s.head? with | some '-' => -1 | _ => 1
  let s1 := match s with
    | '+' :: r => r
    | '-' :: r => r
    | r => r
  let ip := s1.takeWhile Char.isDigit
  let r1 := s1.drop ip.length
  let fp := match r1 with
    | '.' :: r => r.takeWhile Char.isDigit
    | _ => []
  let r2 := match r1 with
    | '.' :: r => r.drop (r.takeWhile Char.isDigit).length
    | r => r
  if ip = [] ∧ fp = [] then none
  else
    let m : Nat := digitsToNat (ip ++ fp) 0
    let f : Nat := fp.length
    match r2 with
    | [] => some ⟨sgn * m, f⟩
    | e :: r3 =>
      if e = 'e' ∨ e = 'E' then
        let esgn : Int := match r3.head? with | some '-' => -1 | _ => 1
        let r4 := match r3 with
          | '+' :: r => r
          | '-' :: r => r
          | r => r
        let ed := r4.takeWhile Char.isDigit
        if ed = [] ∨ r4.drop ed.length ≠ [] then none
        else
          let expo : Int := esgn * (digitsToNat ed 0 : Int)
          let e2 : Int := expo - (f : Int)
          if 0 ≤ e2 then some ⟨sgn * m * 10 ^ e2.toNat, 0⟩
          else some ⟨sgn * m, (-e2).toNat⟩
      else none

/-- The `ValueError` message CPython attaches to a failed float conversion
(its `repr` quoting is modelled as plain single quotes). -/
def floatErrMsg (tok : String) : String :=
  "could not convert string to float: '" ++ tok ++ "'"

/-- One whitespace-separated token into a tuple:
`tuple(float(c) for c in latlon.split(","))`. -/
def parseTuple (tok : List Char) : Except String Coord :=
  exceptMapM
    (fun f =>
      match parseFloat f with
      | some x => Except.ok x
      | none => Except.error (floatErrMsg (String.mk f)))
    (pySplitComma tok)

/-- The shared tuple-text parser of `subelement_coordinates_kwarg` and
`_Geometry._get_coordinates` (src/fastkml/geometry.py lines 151, 155-159 and
357, 361-363): strip, normalize ", +" to ",", split on whitespace, split each
token on commas, convert each field with `float`.  The error is the
`ValueError` message of the first failing field. -/
def parseLatLons (text : String) : Except String (List Coord) :=
  exceptMapM parseTuple (pySplitWs (commaSub (pyStrip text.toList)))

/-! ### Decode-side error handling -/

/-- A `KMLParseError` (the only exception kind the decoders raise). -/
inductive DecodeErr where
  | parseError (msg : String)
deriving DecidableEq, Repr

/-- The message built by `handle_invalid_geometry_error`
(src/fastkml/geometry.py line 93). -/
def invalidCoordsMsg (serialized cause : String) : String :=
  "Invalid coordinates in '" ++ serialized ++ "' caused by '" ++ cause ++ "'"

/-- `handle_invalid_geometry_error` (src/fastkml/geometry.py lines 81-96):
logs (not modelled) and, in strict mode only, raises `KMLParseError` with the
serialized offending element and the triggering exception's text. -/
def handle_invalid_geometry_error (cause : String) (element : Elem) (strict : Bool) :
    Except DecodeErr Unit :=
  if strict then .error (.parseError (invalidCoordsMsg element.tostring cause)) else .ok ()

/-- `subelement_coordinates_kwarg` (src/fastkml/geometry.py lines 138-166):
the registry get-kwarg that reads a `coordinates` element's text.  `none`
models the empty kwarg dict `\x7b\x7d` (text attribute absent, or recovered
failure); `some cs` models the dict carrying the parsed tuple list. -/
def subelement_coordinates_kwarg (element : Elem) (strict : Bool) :
    Except DecodeErr (Option (List Coord)) :=
  match element.text with
  | none => .ok none
  | some t =>
    match parseLatLons t with
    | .ok cs => .ok (some cs)
    | .error cause => do
      handle_invalid_geometry_error cause element strict
      pure none

/-- `_Geometry._get_coordinates` (src/fastkml/geometry.py lines 335-370):
find the `coordinates` child; absent child or absent text yields `[]`; parse
failures are routed through `handle_invalid_geometry_error` (note it receives
the parent `element`, not the `coordinates` child) and recovered to `[]`. -/
def get_coordinates (ns : String) (element : Elem) (strict : Bool) :
    Except DecodeErr (List Coord) :=
  match element.find (ns ++ "coordinates") with
  | none => .ok []
  | some coordinates =>
    match coordinates.text with
    | none => .ok []
    | some t =>
      match parseLatLons t with
      | .ok cs => .ok cs
      | .error cause => do
        handle_invalid_geometry_error cause element strict
        pure []

/-! ### Geometry values (the pygeoif layer, modelled from the spec) -/

/-- A Geometry Value: the tagged union of spec section 3 (the pygeoif classes
the code stores in `_geometry`). -/
inductive Geo where
  | point (coord : Coord)
  | lineString (coords : List Coord)
  | linearRing (coords : List Coord)
  | polygon (exterior : List Coord) (interiors : List (List Coord))
  | multiPoint (points : List Coord)
  | multiLineString (lines : List (List Coord))
  | multiPolygon (polygons : List (List Coord × List (List Coord)))
  | geometryCollection (geoms : List Geo)

/-- `geom_type`, the class-name string pygeoif exposes and
`create_multigeometry` dispatches on. -/
def Geo.geom_type : Geo → String
  | .point _ => "Point"
  | .lineString _ => "LineString"
  | .linearRing _ => "LinearRing"
  | .polygon _ _ => "Polygon"
  | .multiPoint _ => "MultiPoint"
  | .multiLineString _ => "MultiLineString"
  | .multiPolygon _ => "MultiPolygon"
  | .geometryCollection _ => "GeometryCollection"

/-- Modelled from the spec: pygeoif truthiness — a geometry is falsy when it
holds no coordinates/members (spec section 3: "A wrapper evaluates as empty
when it holds no Geometry Value / no coordinates"). -/
def Geo.truthy : Geo → Bool
  | .point c => ¬ c.isEmpty
  | .lineString cs => ¬ cs.isEmpty
  | .linearRing cs => ¬ cs.isEmpty
  | .polygon ext _ => ¬ ext.isEmpty
  | .multiPoint ms => ¬ ms.isEmpty
  | .multiLineString ms => ¬ ms.isEmpty
  | .multiPolygon ms => ¬ ms.isEmpty
  | .geometryCollection ms => ¬ ms.isEmpty

/-- The coordinate list of a simple geometry (pygeoif `coords`; a point's
`coords` is the one-tuple list). -/
def Geo.coordsOf : Geo → List Coord
  | .point c => [c]
  | .lineString cs => cs
  | .linearRing cs => cs
  | _ => []

/-- The stored ring of a decoded `linearRing` (used to build polygons). -/
def Geo.ringCoords : Geo → List Coord
  | .linearRing cs => cs
  | _ => []

/-- The exception kinds `LinearRing._get_geometry` catches from the pygeoif
ring constructor (src/fastkml/geometry.py line 643). -/
inductive RingErr where
  | indexError
  | typeError
  | dimensionError
deriving DecidableEq, Repr

/-- The `str(e)` text interpolated into the invalid-coordinates message
(abstract placeholders; no claim inspects these strings). -/
def RingErr.msg : RingErr → String
  | .indexError => "list index out of range"
  | .typeError => "type error"
  | .dimensionError => "All coordinates must have the same dimension"

/-- Every tuple has the arity of the first. -/
def sameArity : List Coord → Bool
  | [] => true
  | c :: cs => cs.all (fun d => d.length = c.length)

/-- Modelled from the spec: `geo.LinearRing.from_coordinates` (pygeoif, not
under src/).  Spec section 3: a LinearRing needs at least 4 tuples, first and
last equal (closure failure "must surface as a decode error, never silently
fixed"), consistent dimensionality 2 or 3; violations raise the exception
kinds the caller catches. -/
def linearRing_from_coordinates (coords : List Coord) : Except RingErr (List Coord) :=
  match coords with
  | [] => .error .indexError
  | c0 :: _ =>
    if ¬ sameArity coords then .error .dimensionError
    else if ¬ (c0.length = 2 ∨ c0.length = 3) then .error .dimensionError
    else if coords.length < 4 ∨ coords.head? ≠ coords.getLast? then .error .typeError
    else .ok coords

/-- `LinearRing._get_geometry` (src/fastkml/geometry.py lines 632-649):
coordinates, then the ring constructor; constructor failures go through
`handle_invalid_geometry_error` (fatal only in strict mode) and yield
`None`. -/
def LinearRing_get_geometry (ns : String) (element : Elem) (strict : Bool) :
    Except DecodeErr (Option Geo) := do
  let coords ← get_coordinates ns element strict
  match linearRing_from_coordinates coords with
  | .ok cs => pure (some (.linearRing cs))
  | .error e => do
    handle_invalid_geometry_error e.msg element strict
    pure none

/-- `_Geometry._get_geometry` (src/fastkml/geometry.py lines 372-380), the
base-class stub that always returns `None`.  `Point` and `LineString` do not
override it, so this is their `_get_geometry`. -/
def Point_get_geometry (ns : String) (element : Elem) (strict : Bool) :
    Except DecodeErr (Option Geo) :=
  .ok none

/-- `LineString._get_geometry` resolves to the same base-class stub. -/
def LineString_get_geometry (ns : String) (element : Elem) (strict : Bool) :
    Except DecodeErr (Option Geo) :=
  .ok none

/-- The `for inner_boundary in element.findall(...)` loop of
`Polygon._get_geometry` (src/fastkml/geometry.py lines 763-779): each
`innerBoundaryIs` child must hold a nested `LinearRing` (missing is fatal);
a ring that decodes and is truthy is appended to the accumulator
(the walrus `if hole := ...`), anything else is skipped. -/
def collectInteriors (ns : String) (strict : Bool) (element : Elem) :
    List Elem → List Geo → Except DecodeErr (List Geo)
  | [], acc => .ok acc
  | inner_boundary :: rest, acc =>
    match inner_boundary.find (ns ++ "LinearRing") with
    | none => .error (.parseError ("Missing LinearRing in " ++ element.tostring))
    | some inner_ring =>
      match LinearRing_get_geometry ns inner_ring strict with
      | .error e => .error e
      | .ok hole =>
        collectInteriors ns strict element rest
          (match hole with
            | some h => if h.truthy then acc ++ [h] else acc
            | none => acc)

/-- `Polygon._get_geometry` (src/fastkml/geometry.py lines 733-782): requires
`outerBoundaryIs` with a nested `LinearRing` (missing pieces raise
`KMLParseError` unconditionally); collects interior rings from each
`innerBoundaryIs` (each likewise requiring a nested `LinearRing`), skipping
rings that decode to nothing usable; an unusable exterior yields `None`. -/
def Polygon_get_geometry (ns : String) (element : Elem) (strict : Bool) :
    Except DecodeErr (Option Geo) :=
  match element.find (ns ++ "outerBoundaryIs") with
  | none => .error (.parseError ("Missing outerBoundaryIs in " ++ element.tostring))
  | some outer_boundary =>
    match outer_boundary.find (ns ++ "LinearRing") with
    | none => .error (.parseError ("Missing LinearRing in " ++ element.tostring))
    | some outer_ring =>
      match LinearRing_get_geometry ns outer_ring strict with
      | .error e => .error e
      | .ok exterior =>
        match collectInteriors ns strict element
            (element.findall (ns ++ "innerBoundaryIs")) [] with
        | .error e => .error e
        | .ok interiors =>
          .ok (match exterior with
            | some ext =>
              if ext.truthy then
                some (.polygon ext.ringCoords (interiors.map Geo.ringCoords))
              else none
            | none => none)

/-! ### The Geometry Kind Dispatcher -/

def Geo.asPoint : Geo → Option Coord
  | .point c => some c
  | _ => none

def Geo.asLineString : Geo → Option (List Coord)
  | .lineString cs => some cs
  | _ => none

def Geo.asPolygon : Geo → Option (List Coord × List (List Coord))
  | .polygon ext ints => some (ext, ints)
  | _ => none

/-- `create_multigeometry` (src/fastkml/geometry.py lines 785-816): the set
of member `geom_type` strings decides the container; a single kind among
Point/LineString/Polygon yields the homogeneous multi-geometry (members in
order), anything else a `GeometryCollection` (members in order), and an empty
member list yields `None`. -/
def create_multigeometry (geometries : List Geo) : Option Geo :=
  match (geometries.map Geo.geom_type).dedup with
  | [] => none
  | [t] =>
    if t = "Point" then some (.multiPoint (geometries.filterMap Geo.asPoint))
    else if t = "LineString" then
      some (.multiLineString (geometries.filterMap Geo.asLineString))
    else if t = "Polygon" then
      some (.multiPolygon (geometries.filterMap Geo.asPolygon))
    else some (.geometryCollection geometries)
  | _ => some (.geometryCollection geometries)

/-- The inner collection loop of `MultiGeometry._get_geometry`: feed each
decode result, in order, into the accumulator, keeping non-`None` results and
propagating exceptions. -/
def collectTag : List (Except DecodeErr (Option Geo)) → List Geo →
    Except DecodeErr (List Geo)
  | [], acc => .ok acc
  | r :: rs, acc =>
    match r with
    | .error e => .error e
    | .ok (some g) => collectTag rs (acc ++ [g])
    | .ok none => collectTag rs acc

mutual
/-- `MultiGeometry._get_geometry` (src/fastkml/geometry.py lines 899-918):
for each allowed class — the container's own tag first, then the
`map_to_kml` insertion order Point, LineString, Polygon, LinearRing — decode
every matching child with that class's `_get_geometry`, keep non-`None`
results, and hand the collected list to `create_multigeometry`.  (The
recursion over own-tag children is routed through `decodeMultiChildren` so
that it is structural; the decoded pairs are filtered exactly as
`findall` filters.) -/
def MultiGeometry_get_geometry (ns : String) (strict : Bool) (element : Elem) :
    Except DecodeErr (Option Geo) :=
  match element with
  | .mk _ _ children =>
    let recPairs := decodeMultiChildren ns strict children
    let step1 := collectTag
      ((recPairs.filter (fun p => p.1.tag = ns ++ "MultiGeometry")).map Prod.snd) []
    match step1 with
    | .error e => .error e
    | .ok a1 =>
      match collectTag ((element.findall (ns ++ "Point")).map
          (fun e => Point_get_geometry ns e strict)) a1 with
      | .error e => .error e
      | .ok a2 =>
        match collectTag ((element.findall (ns ++ "LineString")).map
            (fun e => LineString_get_geometry ns e strict)) a2 with
        | .error e => .error e
        | .ok a3 =>
          match collectTag ((element.findall (ns ++ "Polygon")).map
              (fun e => Polygon_get_geometry ns e strict)) a3 with
          | .error e => .error e
          | .ok a4 =>
            match collectTag ((element.findall (ns ++ "LinearRing")).map
                (fun e => LinearRing_get_geometry ns e strict)) a4 with
            | .error e => .error e
            | .ok a5 => .ok (create_multigeometry a5)
/-- Pair every child with its recursive multi-geometry decode (evaluated
lazily in Python; the pairing is semantically invisible since the decoders
are pure). -/
def decodeMultiChildren (ns : String) (strict : Bool) :
    ElemList → List (Elem × Except DecodeErr (Option Geo))
  | .nil => []
  | .cons c cs =>
    (c, MultiGeometry_get_geometry ns strict c) :: decodeMultiChildren ns strict cs
end

/-! ### Markup wrappers: construction -/

/-- The `Coordinates` XML object (src/fastkml/geometry.py lines 169-214):
carries the raw coordinate tuple list (`coords or []`). -/
structure Coordinates where
  coords : List Coord
deriving Repr

/-- A simple geometry wrapper's state as far as the claims reach: the
`kml_coordinates` attribute set by `__init__`. -/
structure SimpleWrapper where
  kml_coordinates : Option Coordinates
deriving Repr

/-- `Point.__init__` (src/fastkml/geometry.py lines 439-472): supplying both
`geometry` and `kml_coordinates` raises
`ValueError("geometry and kml_coordinates are mutually exclusive")`;
otherwise `kml_coordinates` is taken as given or derived from a truthy
geometry (`geo.Point.coords` is the one-tuple list). -/
def Point_init (geometry : Option Coord) (kml_coordinates : Option Coordinates) :
    Except String SimpleWrapper :=
  if geometry.isSome ∧ kml_coordinates.isSome then
    .error "geometry and kml_coordinates are mutually exclusive"
  else
    .ok ⟨match kml_coordinates with
      | some k => some k
      | none =>
        match geometry with
        | some g => if ¬ g.isEmpty then some ⟨[g]⟩ else none
        | none => none⟩

/-- `LineString.__init__` (src/fastkml/geometry.py lines 513-542): the same
mutual-exclusivity check, with `geometry.coords` the tuple list. -/
def LineString_init (geometry : Option (List Coord)) (kml_coordinates : Option Coordinates) :
    Except String SimpleWrapper :=
  if geometry.isSome ∧ kml_coordinates.isSome then
    .error "geometry and kml_coordinates are mutually exclusive"
  else
    .ok ⟨match kml_coordinates with
      | some k => some k
      | none =>
        match geometry with
        | some g => if ¬ g.isEmpty then some ⟨g⟩ else none
        | none => none⟩

/-- `LinearRing.__init__` (src/fastkml/geometry.py lines 583-608) forwards
everything to `LineString.__init__`. -/
def LinearRing_init (geometry : Option (List Coord)) (kml_coordinates : Option Coordinates) :
    Except String SimpleWrapper :=
  LineString_init geometry kml_coordinates

/-! ### Encoding geometry values to element trees -/

/-- Modelled from the spec: the generic `etree_element` of the document-object
base plus the registry application (spec section 6) for a simple geometry
wrapper — an element named by the wrapper class in the parent's namespace
whose `coordinates` child carries the text written by
`coordinates_subelement`.  Rendering-hint subelements
(extrude/tessellate/altitudeMode) are `None` on every path the claims touch
and are not modelled. -/
def simple_etree_element (ns tagName : String) (coords : List Coord)
    (precision : Option Nat) : Except EncodeErr Elem := do
  let text ← coordinates_subelement coords precision
  pure (.mk (ns ++ tagName) none (.cons (.mk (ns ++ "coordinates") text .nil) .nil))

/-- Encoding of a wrapper whose `kml_coordinates` is `None` (falsy geometry):
the bare element with no `coordinates` child. -/
def bare_etree_element (ns tagName : String) : Elem :=
  .mk (ns ++ tagName) none .nil

/-- `Polygon.etree_element` (src/fastkml/geometry.py lines 694-731): one
`outerBoundaryIs` wrapping the exterior `LinearRing`, then one
`innerBoundaryIs` per interior ring, in order, each ring encoded as a
`LinearRing` wrapper with hints suppressed. -/
def Polygon_etree_element (ns : String) (exterior : List Coord)
    (interiors : List (List Coord)) (precision : Option Nat) :
    Except EncodeErr Elem := do
  if (Geo.polygon exterior interiors).truthy then do
    let outerRing ← simple_etree_element ns "LinearRing" exterior precision
    let innerElems ← exceptMapM
      (fun ring => do
        let r ← simple_etree_element ns "LinearRing" ring precision
        pure (Elem.mk (ns ++ "innerBoundaryIs") none (.cons r .nil)))
      interiors
    pure (.mk (ns ++ "Polygon") none
      (ElemList.ofList
        (Elem.mk (ns ++ "outerBoundaryIs") none (.cons outerRing .nil) :: innerElems)))
  else
    pure (bare_etree_element ns "Polygon")

/-- The geometry list a multi-geometry container iterates (`geoms`). -/
def Geo.members : Geo → List Geo
  | .multiPoint ms => ms.map Geo.point
  | .multiLineString ms => ms.map Geo.lineString
  | .multiPolygon ms => ms.map (fun p => Geo.polygon p.1 p.2)
  | .geometryCollection ms => ms
  | _ => []

/-- The encoder dispatch over geometry kinds: `Point.etree_element`,
`LineString.etree_element`, `LinearRing.etree_element` (base class plus
registry, modelled in `simple_etree_element`), `Polygon.etree_element` and
`MultiGeometry.etree_element` (src/fastkml/geometry.py lines 874-897; the
`_map_to_kml` lookup sends each member to its wrapper class, nested
multi-geometries back to `MultiGeometry`).  The fuel argument is an
embedding artifact bounding the nesting depth of geometry collections; it is
never exhausted at sufficient fuel. -/
def etree_element : Nat → String → Option Nat → Geo → Except EncodeErr Elem
  | 0, _, _, _ => .error .fuel
  | _ + 1, ns, precision, .point c =>
    if ¬ c.isEmpty then simple_etree_element ns "Point" [c] precision
    else pure (bare_etree_element ns "Point")
  | _ + 1, ns, precision, .lineString cs =>
    if ¬ cs.isEmpty then simple_etree_element ns "LineString" cs precision
    else pure (bare_etree_element ns "LineString")
  | _ + 1, ns, precision, .linearRing cs =>
    if ¬ cs.isEmpty then simple_etree_element ns "LinearRing" cs precision
    else pure (bare_etree_element ns "LinearRing")
  | _ + 1, ns, precision, .polygon ext ints => Polygon_etree_element ns ext ints precision
  | fuel + 1, ns, precision, g => do
    let childElems ← exceptMapM (etree_element fuel ns precision) g.members
    pure (.mk (ns ++ "MultiGeometry") none (ElemList.ofList childElems))

/-! ### Helper definitions used in theorem statements -/

/-- The 2-field rendering of a tuple by its first two fields (what the
encoder actually emits for every tuple when the first tuple is a pair). -/
def render2 (p : Nat) (c : Coord) : String :=
  match c with
  | a :: b :: _ => fmtFixed p a ++ "," ++ fmtFixed p b
  | _ => ""

/-- Decode every element of a tag group with one decoder and keep the
non-`None` results, preserving order ("decode every matching child element
with the corresponding decoder, collect non-null results"). -/
def decodeGroup (dec : Elem → Except DecodeErr (Option Geo)) (es : List Elem) :
    Except DecodeErr (List Geo) :=
  (exceptMapM dec es).map (fun os => os.filterMap id)

/-- The usable hole an `innerBoundaryIs` child contributes under non-strict
decoding: its nested ring when that decodes to a truthy ring, nothing
otherwise. -/
def nonStrictHole (ns : String) (inner_boundary : Elem) : Option Geo :=
  match inner_boundary.find (ns ++ "LinearRing") with
  | none => none
  | some inner_ring =>
    match LinearRing_get_geometry ns inner_ring false with
    | .ok (some h) => if h.truthy then some h else none
    | .ok none => none
    | .error _ => none

/-! ### Generic lemmas about the fallible iteration helpers -/

theorem except_bind_ok {ε α β : Type} (a : α) (f : α → Except ε β) :
    (Except.ok a >>= f) = f a := rfl

theorem except_bind_error {ε α β : Type} (e : ε) (f : α → Except ε β) :
    ((Except.error e : Except ε α) >>= f) = .error e := rfl

theorem exceptMapM_ok_forall {ε α β : Type} (f : α → Except ε β) :
    ∀ (l : List α) (r : List β), exceptMapM f l = .ok r → ∀ a ∈ l, ∃ b, f a = .ok b := by
  intro l
  induction l with
  | nil => intro r _ a ha; cases ha
  | cons x xs ih =>
    intro r hr a ha
    rcases List.mem_cons.mp ha with h | h
    · subst h
      cases hfx : f a with
      | error e => rw [exceptMapM, hfx] at hr; cases hr
      | ok b => exact ⟨b, rfl⟩
    · cases hfx : f x with
      | error e => rw [exceptMapM, hfx] at hr; cases hr
      | ok b =>
        rw [exceptMapM, hfx] at hr
        cases hrest : exceptMapM f xs with
        | error e => rw [hrest] at hr; cases hr
        | ok r2 => exact ih r2 hrest a h

theorem exceptMapM_map {ε α β : Type} (f : α → Except ε β) (g : α → β) :
    ∀ (l : List α), (∀ a ∈ l, f a = .ok (g a)) → exceptMapM f l = .ok (l.map g) := by
  intro l
  induction l with
  | nil => intro _; rfl
  | cons x xs ih =>
    intro h
    rw [exceptMapM, h x (List.mem_cons_self x xs),
      ih (fun a ha => h a (List.mem_cons_of_mem x ha))]
    rfl

theorem exceptMapM_ok_mem {ε α β : Type} (f : α → Except ε β) :
    ∀ (l : List α) (r : List β), exceptMapM f l = .ok r →
      ∀ b ∈ r, ∃ a ∈ l, f a = .ok b := by
  intro l
  induction l with
  | nil =>
    intro r hr b hb
    rw [exceptMapM] at hr
    cases hr
    cases hb
  | cons x xs ih =>
    intro r hr b hb
    cases hfx : f x with
    | error e => rw [exceptMapM, hfx] at hr; cases hr
    | ok bx =>
      rw [exceptMapM, hfx] at hr
      cases hrest : exceptMapM f xs with
      | error e => rw [hrest] at hr; cases hr
      | ok r2 =>
        rw [hrest] at hr
        cases hr
        rcases List.mem_cons.mp hb with h | h
        · exact ⟨x, List.mem_cons_self x xs, h ▸ hfx⟩
        · obtain ⟨a, ha, hfa⟩ := ih r2 hrest b h
          exact ⟨a, List.mem_cons_of_mem x ha, hfa⟩

theorem exceptMapM_ok_length {ε α β : Type} (f : α → Except ε β) :
    ∀ (l : List α) (r : List β), exceptMapM f l = .ok r → r.length = l.length := by
  intro l
  induction l with
  | nil => intro r hr; rw [exceptMapM] at hr; cases hr; rfl
  | cons x xs ih =>
    intro r hr
    cases hfx : f x with
    | error e => rw [exceptMapM, hfx] at hr; cases hr
    | ok b =>
      rw [exceptMapM, hfx] at hr
      cases hrest : exceptMapM f xs with
      | error e => rw [hrest] at hr; cases hr
      | ok r2 =>
        rw [hrest] at hr
        cases hr
        simp [ih r2 hrest]

/-! ### Claim C1: round-trip -/

/-- C1: the claimed round-trip — decoding the element tree produced by
encoding any valid Geometry Value at precision p yields an equal value up to
rounding — FAILS on this code for multi-geometries: encoding
`MultiPoint [(1.0, 2.0)]` produces a `MultiGeometry` element holding a
`Point` child with coordinate text `1.000000,2.000000`, but
`MultiGeometry._get_geometry` decodes `Point` (and `LineString`) children
with the base-class `_get_geometry` stub, which always returns `None`; the
member is dropped and the decode yields `None` instead of an equal
`MultiPoint`, in strict and non-strict mode alike. -/
theorem C1_multipoint_roundtrip_dropped :
    etree_element 2 "" none (.multiPoint [[⟨1, 0⟩, ⟨2, 0⟩]]) =
      .ok (.mk "MultiGeometry" none
        (.cons (.mk "Point" none
          (.cons (.mk "coordinates" (some "1.000000,2.000000") .nil) .nil)) .nil)) ∧
    MultiGeometry_get_geometry "" true
        (.mk "MultiGeometry" none
          (.cons (.mk "Point" none
            (.cons (.mk "coordinates" (some "1.000000,2.000000") .nil) .nil)) .nil)) =
      .ok none ∧
    MultiGeometry_get_geometry "" false
        (.mk "MultiGeometry" none
          (.cons (.mk "Point" none
            (.cons (.mk "coordinates" (some "1.000000,2.000000") .nil) .nil)) .nil)) =
      .ok none :=
  ⟨rfl, rfl, rfl⟩

/-! ### Claim C3: strict vs non-strict coordinate text failures -/

/-- C3: for every coordinates element whose text fails to parse as numbers,
strict decoding raises a parse error whose message is built from the
serialized offending element and the underlying exception text, and
non-strict decoding raises nothing and yields the empty kwarg dict (hence an
empty coordinate sequence).  The `logger.error` diagnostic is a side effect
outside the embedding. -/
theorem C3_strict_raises_nonstrict_empty (element : Elem) (t cause : String)
    (htext : element.text = some t) (hfail : parseLatLons t = .error cause) :
    subelement_coordinates_kwarg element true =
      .error (.parseError (invalidCoordsMsg element.tostring cause)) ∧
    subelement_coordinates_kwarg element false = .ok none := by
  constructor <;>
    simp [subelement_coordinates_kwarg, htext, hfail, handle_invalid_geometry_error]

/-- C3 witness: the spec's example text `abc,def` at a concrete element. -/
theorem C3_strict_raises_nonstrict_empty_witness :
    (Elem.mk "coordinates" (some "abc,def") .nil).text = some "abc,def" ∧
    parseLatLons "abc,def" = .error "could not convert string to float: 'abc'" ∧
    subelement_coordinates_kwarg (Elem.mk "coordinates" (some "abc,def") .nil) true =
      .error (.parseError (invalidCoordsMsg
        (Elem.mk "coordinates" (some "abc,def") .nil).tostring
        "could not convert string to float: 'abc'")) ∧
    subelement_coordinates_kwarg (Elem.mk "coordinates" (some "abc,def") .nil) false =
      .ok none :=
  ⟨rfl, rfl,
    (C3_strict_raises_nonstrict_empty (.mk "coordinates" (some "abc,def") .nil)
      "abc,def" "could not convert string to float: 'abc'" rfl rfl).1,
    (C3_strict_raises_nonstrict_empty (.mk "coordinates" (some "abc,def") .nil)
      "abc,def" "could not convert string to float: 'abc'" rfl rfl).2⟩

/-! ### Claim C9: mutually exclusive construction paths -/

/-- C9: constructing a Point, LineString or LinearRing wrapper with both a
geometry and a raw kml_coordinates object raises
`ValueError("geometry and kml_coordinates are mutually exclusive")`;
supplying exactly one of the two, or neither, succeeds. -/
theorem C9_mutual_exclusion (g : Coord) (gl : List Coord) (k : Coordinates) :
    Point_init (some g) (some k) =
      .error "geometry and kml_coordinates are mutually exclusive" ∧
    LineString_init (some gl) (some k) =
      .error "geometry and kml_coordinates are mutually exclusive" ∧
    LinearRing_init (some gl) (some k) =
      .error "geometry and kml_coordinates are mutually exclusive" ∧
    (Point_init (some g) none).isOk = true ∧
    (Point_init none (some k)).isOk = true ∧
    (Point_init none none).isOk = true ∧
    (LineString_init (some gl) none).isOk = true ∧
    (LineString_init none (some k)).isOk = true ∧
    (LineString_init none none).isOk = true ∧
    (LinearRing_init (some gl) none).isOk = true ∧
    (LinearRing_init none (some k)).isOk = true ∧
    (LinearRing_init none none).isOk = true := by
  refine ⟨?_, ?_, ?_, ?_, ?_, ?_, ?_, ?_, ?_, ?_, ?_, ?_⟩ <;>
    simp [Point_init, LineString_init, LinearRing_init, Except.isOk, Except.toBool]

/-! ### Claim C10: present but textless coordinates child -/

/-- C10: a coordinates child element that is present but carries no text
decodes to an empty coordinate sequence without any error, even in strict
mode, on both decode paths (the `_get_coordinates` classmethod and the
registry `subelement_coordinates_kwarg`), the same outcome as when the
coordinates child is entirely absent. -/
theorem C10_textless_coordinates_empty (ns : String) (e ce : Elem)
    (hfind : e.find (ns ++ "coordinates") = some ce) (htext : ce.text = none) :
    (get_coordinates ns e true = .ok [] ∧ get_coordinates ns e false = .ok []) ∧
    (subelement_coordinates_kwarg ce true = .ok none ∧
      subelement_coordinates_kwarg ce false = .ok none) ∧
    (∀ (strict : Bool) (e2 : Elem), e2.find (ns ++ "coordinates") = none →
      get_coordinates ns e2 strict = .ok []) := by
  refine ⟨⟨?_, ?_⟩, ⟨?_, ?_⟩, fun strict e2 h2 => ?_⟩ <;>
    simp [get_coordinates, subelement_coordinates_kwarg, hfind, htext, *]

/-- C10 witness: a concrete element with a textless coordinates child. -/
theorem C10_textless_coordinates_empty_witness :
    (Elem.mk "Point" none (.cons (.mk "coordinates" none .nil) .nil)).find
        ("" ++ "coordinates") = some (.mk "coordinates" none .nil) ∧
    (Elem.mk "coordinates" none ElemList.nil).text = none ∧
    get_coordinates ""
      (Elem.mk "Point" none (.cons (.mk "coordinates" none .nil) .nil)) true = .ok [] :=
  ⟨rfl, rfl,
    ((C10_textless_coordinates_empty ""
      (.mk "Point" none (.cons (.mk "coordinates" none .nil) .nil))
      (.mk "coordinates" none .nil) rfl rfl).1).1⟩

/-! ### Claim C2: dimension handling in the encoder -/

theorem tupleText2_of_len2 (p : Nat) (c : Coord) (h : 2 ≤ c.length) :
    tupleText2 p c = .ok (render2 p c) := by
  rcases c with _ | ⟨a, _ | ⟨b, rest⟩⟩
  · simp at h
  · simp at h
  · rfl

theorem tupleText3_short (p : Nat) (c : Coord) (h : c.length < 3) :
    tupleText3 p c = .error .indexError := by
  rcases c with _ | ⟨a, _ | ⟨b, _ | ⟨x, t⟩⟩⟩
  · rfl
  · rfl
  · rfl
  · simp at h
    omega

theorem tupleText3_shape (p : Nat) (c : Coord) :
    (∃ s, tupleText3 p c = .ok s) ∨ tupleText3 p c = .error .indexError := by
  rcases c with _ | ⟨a, _ | ⟨b, _ | ⟨x, t⟩⟩⟩
  · right; rfl
  · right; rfl
  · right; rfl
  · left; exact ⟨_, rfl⟩

theorem exceptMapM_tupleText3_err (p : Nat) :
    ∀ (l : List Coord), (∃ c ∈ l, c.length < 3) →
      exceptMapM (tupleText3 p) l = .error .indexError := by
  intro l
  induction l with
  | nil => rintro ⟨c, hc, _⟩; cases hc
  | cons x xs ih =>
    rintro ⟨c, hc, hlen⟩
    rcases List.mem_cons.mp hc with h | h
    · subst h
      rw [exceptMapM, tupleText3_short p c hlen]
    · rcases tupleText3_shape p x with ⟨s, hs⟩ | hs
      · rw [exceptMapM, hs, ih ⟨c, h, hlen⟩]
      · rw [exceptMapM, hs]

/-- C2 (amended): the encoder checks only the first tuple's arity.  When the
first tuple is a 2-tuple, a sequence mixing 2-tuples and 3-tuples encodes
without any error, rendering every tuple from its first two fields (3-tuples
silently truncated).  When the first tuple is a 3-tuple and a 2-tuple occurs,
encoding fails with an `IndexError` from tuple indexing, not the
"invalid dimensions" error.  The `KMLWriteError` "invalid dimensions" is
raised exactly when the first tuple's arity is neither 2 nor 3. -/
theorem C2_first_tuple_decides (coords : List Coord) (precision : Option Nat)
    (c0 : Coord) (rest : List Coord) (hc : coords = c0 :: rest)
    (hall : ∀ c ∈ coords, c.length = 2 ∨ c.length = 3) :
    (c0.length = 2 →
      coordinates_subelement coords precision =
        .ok (some (String.intercalate " "
          (coords.map (render2 (precision.getD 6)))))) ∧
    (c0.length = 3 → (∃ c ∈ coords, c.length = 2) →
      coordinates_subelement coords precision = .error .indexError) ∧
    (∀ (coords2 : List Coord) (d0 : Coord) (rest2 : List Coord),
      coords2 = d0 :: rest2 → d0.length ≠ 2 → d0.length ≠ 3 →
      coordinates_subelement coords2 precision =
        .error (.writeError "Invalid dimensions in coordinates")) := by
  subst hc
  refine ⟨fun h2 => ?_, fun h3 hex => ?_, fun coords2 d0 rest2 hc2 hd2 hd3 => ?_⟩
  · rw [coordinates_subelement, if_pos h2,
      exceptMapM_map (tupleText2 (precision.getD 6)) (render2 (precision.getD 6))
        (c0 :: rest)
        (fun c hcm => tupleText2_of_len2 (precision.getD 6) c
          (by rcases hall c hcm with h | h <;> omega))]
    rfl
  · rw [coordinates_subelement, if_neg (by omega), if_pos h3,
      exceptMapM_tupleText3_err (precision.getD 6) (c0 :: rest)
        ⟨hex.choose, hex.choose_spec.1, by have := hex.choose_spec.2; omega⟩]
    rfl
  · subst hc2
    rw [coordinates_subelement, if_neg hd2, if_neg hd3]

/-- C2 counterexample: a sequence containing both a 2-tuple and a 3-tuple
whose first tuple is the 2-tuple encodes WITHOUT any error, silently
truncating the 3-tuple `(3.0, 4.0, 5.0)` to two fields — the claim says this
must always fail with the "invalid dimensions" error. -/
theorem C2_mixed_dims_truncates :
    coordinates_subelement [[⟨1, 0⟩, ⟨2, 0⟩], [⟨3, 0⟩, ⟨4, 0⟩, ⟨5, 0⟩]] none =
      .ok (some "1.000000,2.000000 3.000000,4.000000") := by rfl

/-- C2 witness: the amended behavior at concrete mixed sequences. -/
theorem C2_first_tuple_decides_witness :
    (∀ c ∈ ([[⟨1, 0⟩, ⟨2, 0⟩], [⟨3, 0⟩, ⟨4, 0⟩, ⟨5, 0⟩]] : List Coord),
      c.length = 2 ∨ c.length = 3) ∧
    coordinates_subelement [[⟨1, 0⟩, ⟨2, 0⟩], [⟨3, 0⟩, ⟨4, 0⟩, ⟨5, 0⟩]] none =
      .ok (some (String.intercalate " "
        (([[⟨1, 0⟩, ⟨2, 0⟩], [⟨3, 0⟩, ⟨4, 0⟩, ⟨5, 0⟩]] : List Coord).map
          (render2 ((none : Option Nat).getD 6))))) ∧
    coordinates_subelement [[⟨1, 0⟩, ⟨2, 0⟩, ⟨3, 0⟩], [⟨4, 0⟩, ⟨5, 0⟩]] none =
      .error .indexError ∧
    coordinates_subelement [[⟨1, 0⟩]] none =
      .error (.writeError "Invalid dimensions in coordinates") :=
  ⟨by decide,
    (C2_first_tuple_decides [[⟨1, 0⟩, ⟨2, 0⟩], [⟨3, 0⟩, ⟨4, 0⟩, ⟨5, 0⟩]] none
      [⟨1, 0⟩, ⟨2, 0⟩] [[⟨3, 0⟩, ⟨4, 0⟩, ⟨5, 0⟩]] rfl (by decide)).1 rfl,
    (C2_first_tuple_decides [[⟨1, 0⟩, ⟨2, 0⟩, ⟨3, 0⟩], [⟨4, 0⟩, ⟨5, 0⟩]] none
      [⟨1, 0⟩, ⟨2, 0⟩, ⟨3, 0⟩] [[⟨4, 0⟩, ⟨5, 0⟩]] rfl (by decide)).2.1 rfl
      (by decide),
    (C2_first_tuple_decides [[⟨1, 0⟩, ⟨2, 0⟩], [⟨3, 0⟩, ⟨4, 0⟩, ⟨5, 0⟩]] none
      [⟨1, 0⟩, ⟨2, 0⟩] [[⟨3, 0⟩, ⟨4, 0⟩, ⟨5, 0⟩]] rfl (by decide)).2.2
      [[⟨1, 0⟩]] [⟨1, 0⟩] [] rfl (by decide) (by decide)⟩

/-! ### Claim C8: tolerant coordinate text parsing -/

theorem pySplitCommaAux_length_pos :
    ∀ (s acc : List Char), 1 ≤ (pySplitCommaAux s acc).length := by
  intro s
  induction s with
  | nil => intro acc; simp [pySplitCommaAux]
  | cons c rest ih =>
    intro acc
    by_cases hc : c = ','
    · simp [pySplitCommaAux, hc]
    · simpa [pySplitCommaAux, hc] using ih (c :: acc)

theorem parseTuple_ok_length (tok : List Char) (c : Coord)
    (h : parseTuple tok = .ok c) : 1 ≤ c.length := by
  have hlen := exceptMapM_ok_length _ _ _ h
  rw [hlen]
  exact pySplitCommaAux_length_pos tok []

/-- C8 (amended): parsing coordinate text first normalizes every comma
followed by spaces to a bare comma, then splits on runs of whitespace; the
malformed text `1.0, 2.0 3.0,4.0` parses in both modes, without raising, to
the two pairs (1.0, 2.0) and (3.0, 4.0).  Each token splits on commas into
one or more float fields: tuple arity is NOT validated at parse time, so a
parsed tuple is merely non-empty (it need not have arity 2 or 3). -/
theorem C8_parse_tolerant (t : String) (cs : List Coord)
    (hok : parseLatLons t = .ok cs) :
    (∀ c ∈ cs, 1 ≤ c.length) ∧
    (∀ strict : Bool,
      subelement_coordinates_kwarg
          (Elem.mk "coordinates" (some "1.0, 2.0 3.0,4.0") .nil) strict =
        .ok (some [[⟨10, 1⟩, ⟨20, 1⟩], [⟨30, 1⟩, ⟨40, 1⟩]])) ∧
    (⟨10, 1⟩ : PFloat).val = 1 ∧ (⟨20, 1⟩ : PFloat).val = 2 ∧
    (⟨30, 1⟩ : PFloat).val = 3 ∧ (⟨40, 1⟩ : PFloat).val = 4 := by
  have hok2 : exceptMapM parseTuple (pySplitWs (commaSub (pyStrip t.toList))) = .ok cs :=
    hok
  refine ⟨fun c hc => ?_, fun strict => ?_, ?_, ?_, ?_, ?_⟩
  · obtain ⟨tok, _, hpt⟩ := exceptMapM_ok_mem parseTuple _ cs hok2 c hc
    exact parseTuple_ok_length tok c hpt
  · cases strict <;> rfl
  all_goals norm_num [PFloat.val]

/-- C8 counterexample: the lone token `1.0` parses successfully (strict
mode) to a 1-tuple, so parsed tuples do NOT always have arity 2 or 3 as the
claim states. -/
theorem C8_single_field_tuple :
    subelement_coordinates_kwarg (Elem.mk "coordinates" (some "1.0") .nil) true =
      .ok (some [[⟨10, 1⟩]]) ∧
    ¬ (([⟨10, 1⟩] : Coord).length = 2 ∨ ([⟨10, 1⟩] : Coord).length = 3) :=
  ⟨rfl, by decide⟩

/-- C8 witness: the spec's example text, parsed. -/
theorem C8_parse_tolerant_witness :
    parseLatLons "1.0, 2.0 3.0,4.0" =
      .ok [[⟨10, 1⟩, ⟨20, 1⟩], [⟨30, 1⟩, ⟨40, 1⟩]] ∧
    (∀ c ∈ ([[⟨10, 1⟩, ⟨20, 1⟩], [⟨30, 1⟩, ⟨40, 1⟩]] : List Coord), 1 ≤ c.length) :=
  ⟨rfl, (C8_parse_tolerant "1.0, 2.0 3.0,4.0"
    [[⟨10, 1⟩, ⟨20, 1⟩], [⟨30, 1⟩, ⟨40, 1⟩]] rfl).1⟩

/-! ### Claims C4 and C7: polygon structure errors and unusable rings -/

theorem get_coordinates_nonstrict_ok (ns : String) (e : Elem) :
    ∃ cs, get_coordinates ns e false = .ok cs := by
  cases hf : e.find (ns ++ "coordinates") with
  | none => exact ⟨[], by simp only [get_coordinates, hf]⟩
  | some ce =>
    cases ht : ce.text with
    | none => exact ⟨[], by simp only [get_coordinates, hf, ht]⟩
    | some t =>
      cases hp : parseLatLons t with
      | ok cs => exact ⟨cs, by simp only [get_coordinates, hf, ht, hp]⟩
      | error cause =>
        exact ⟨[], by simp [get_coordinates, hf, ht, hp, handle_invalid_geometry_error]⟩

theorem LinearRing_nonstrict_ok (ns : String) (e : Elem) :
    ∃ r, LinearRing_get_geometry ns e false = .ok r := by
  obtain ⟨cs, hcs⟩ := get_coordinates_nonstrict_ok ns e
  cases hlr : linearRing_from_coordinates cs with
  | ok r =>
    exact ⟨some (.linearRing r), by
      rw [LinearRing_get_geometry, hcs, except_bind_ok, hlr]; rfl⟩
  | error e2 =>
    exact ⟨none, by
      rw [LinearRing_get_geometry, hcs, except_bind_ok, hlr]; rfl⟩

theorem DecodeErr.eq_parseError : ∀ (e : DecodeErr), ∃ m, e = .parseError m
  | .parseError m => ⟨m, rfl⟩

theorem collectInteriors_missing_nonstrict (ns : String) (element ib : Elem)
    (hib : ib.find (ns ++ "LinearRing") = none) :
    ∀ (pre : List Elem), (∀ x ∈ pre, (x.find (ns ++ "LinearRing")).isSome) →
      ∀ (post : List Elem) (acc : List Geo),
      collectInteriors ns false element (pre ++ ib :: post) acc =
        .error (.parseError ("Missing LinearRing in " ++ element.tostring)) := by
  intro pre
  induction pre with
  | nil =>
    intro _ post acc
    rw [List.nil_append]
    simp only [collectInteriors, hib]
  | cons x xs ih =>
    intro hall post acc
    obtain ⟨ir, hir⟩ := Option.isSome_iff_exists.mp (hall x (List.mem_cons_self x xs))
    obtain ⟨r, hr⟩ := LinearRing_nonstrict_ok ns ir
    rw [List.cons_append]
    simp only [collectInteriors, hir, hr]
    exact ih (fun y hy => hall y (List.mem_cons_of_mem x hy)) post _

theorem collectInteriors_missing_strict (ns : String) (element ib : Elem)
    (hib : ib.find (ns ++ "LinearRing") = none) :
    ∀ (pre : List Elem), (∀ x ∈ pre, (x.find (ns ++ "LinearRing")).isSome) →
      ∀ (post : List Elem) (acc : List Geo),
      ∃ m, collectInteriors ns true element (pre ++ ib :: post) acc =
        .error (.parseError m) := by
  intro pre
  induction pre with
  | nil =>
    intro _ post acc
    refine ⟨"Missing LinearRing in " ++ element.tostring, ?_⟩
    rw [List.nil_append]
    simp only [collectInteriors, hib]
  | cons x xs ih =>
    intro hall post acc
    obtain ⟨ir, hir⟩ := Option.isSome_iff_exists.mp (hall x (List.mem_cons_self x xs))
    cases hr : LinearRing_get_geometry ns ir true with
    | error e =>
      obtain ⟨m, hm⟩ := DecodeErr.eq_parseError e
      subst hm
      refine ⟨m, ?_⟩
      rw [List.cons_append]
      simp only [collectInteriors, hir, hr]
    | ok r =>
      rw [List.cons_append]
      simp only [collectInteriors, hir, hr]
      exact ih (fun y hy => hall y (List.mem_cons_of_mem x hy)) post _

/-- C4 (amended): a Polygon element lacking an outer-boundary child, or whose
outer boundary lacks a nested LinearRing, always raises `KMLParseError`
naming the missing piece and containing the serialized polygon element, in
both modes.  An inner boundary lacking a nested LinearRing raises that same
named error whenever decoding reaches it — always in non-strict mode; in
strict mode an earlier ring whose coordinates fail to parse raises its own
(invalid-coordinates) `KMLParseError` first, so strict decoding still always
fails, but not necessarily with the missing-piece message. -/
theorem C4_missing_structure_fatal (ns : String) (element : Elem) :
    (∀ strict, element.find (ns ++ "outerBoundaryIs") = none →
      Polygon_get_geometry ns element strict =
        .error (.parseError ("Missing outerBoundaryIs in " ++ element.tostring))) ∧
    (∀ strict ob, element.find (ns ++ "outerBoundaryIs") = some ob →
      ob.find (ns ++ "LinearRing") = none →
      Polygon_get_geometry ns element strict =
        .error (.parseError ("Missing LinearRing in " ++ element.tostring))) ∧
    (∀ ob oring pre ib post,
      element.find (ns ++ "outerBoundaryIs") = some ob →
      ob.find (ns ++ "LinearRing") = some oring →
      element.findall (ns ++ "innerBoundaryIs") = pre ++ ib :: post →
      (∀ x ∈ pre, (x.find (ns ++ "LinearRing")).isSome) →
      ib.find (ns ++ "LinearRing") = none →
      Polygon_get_geometry ns element false =
        .error (.parseError ("Missing LinearRing in " ++ element.tostring)) ∧
      ∃ m, Polygon_get_geometry ns element true = .error (.parseError m)) := by
  refine ⟨fun strict hob => ?_, fun strict ob hob hor => ?_,
    fun ob oring pre ib post hob hor hfa hpre hib => ⟨?_, ?_⟩⟩
  · simp only [Polygon_get_geometry, hob]
  · simp only [Polygon_get_geometry, hob, hor]
  · obtain ⟨r, hr⟩ := LinearRing_nonstrict_ok ns oring
    simp only [Polygon_get_geometry, hob, hor, hr, hfa,
      collectInteriors_missing_nonstrict ns element ib hib pre hpre post []]
  · cases hr : LinearRing_get_geometry ns oring true with
    | error e =>
      obtain ⟨m, hm⟩ := DecodeErr.eq_parseError e
      refine ⟨m, ?_⟩
      simp only [Polygon_get_geometry, hob, hor, hr, hm]
    | ok r =>
      obtain ⟨m, hm⟩ :=
        collectInteriors_missing_strict ns element ib hib pre hpre post []
      refine ⟨m, ?_⟩
      simp only [Polygon_get_geometry, hob, hor, hr, hfa, hm]

/-- C4 counterexample: a Polygon whose outer ring has non-numeric coordinate
text AND whose inner boundary lacks a LinearRing.  Strict decoding raises the
invalid-coordinates parse error from the outer ring — a message that does not
name the missing piece — contradicting the claim that decode raises a parse
error naming the missing piece for every such element in both modes. -/
theorem C4_strict_preemption :
    Polygon_get_geometry ""
      (.mk "Polygon" none
        (.cons (.mk "outerBoundaryIs" none
          (.cons (.mk "LinearRing" none
            (.cons (.mk "coordinates" (some "abc,def") .nil) .nil)) .nil))
        (.cons (.mk "innerBoundaryIs" none .nil) .nil))) true =
      .error (.parseError (invalidCoordsMsg
        (Elem.mk "LinearRing" none
          (.cons (.mk "coordinates" (some "abc,def") .nil) .nil)).tostring
        "could not convert string to float: 'abc'")) ∧
    ("Missing".toList.isPrefixOf
      (invalidCoordsMsg
        (Elem.mk "LinearRing" none
          (.cons (.mk "coordinates" (some "abc,def") .nil) .nil)).tostring
        "could not convert string to float: 'abc'").toList) = false :=
  ⟨rfl, rfl⟩

/-- C4 witness: the amended statement applied to concrete polygon elements —
a polygon with no outer boundary, and a polygon with a bad outer ring plus an
inner boundary missing its LinearRing. -/
theorem C4_missing_structure_fatal_witness :
    ((Elem.mk "Polygon" none .nil).find ("" ++ "outerBoundaryIs") = none ∧
      Polygon_get_geometry "" (.mk "Polygon" none .nil) true =
        .error (.parseError ("Missing outerBoundaryIs in " ++
          (Elem.mk "Polygon" none ElemList.nil).tostring))) ∧
    (Polygon_get_geometry ""
        (.mk "Polygon" none
          (.cons (.mk "outerBoundaryIs" none
            (.cons (.mk "LinearRing" none
              (.cons (.mk "coordinates" (some "abc,def") .nil) .nil)) .nil))
          (.cons (.mk "innerBoundaryIs" none .nil) .nil))) false =
        .error (.parseError ("Missing LinearRing in " ++
          (Elem.mk "Polygon" none
            (.cons (.mk "outerBoundaryIs" none
              (.cons (.mk "LinearRing" none
                (.cons (.mk "coordinates" (some "abc,def") .nil) .nil)) .nil))
            (.cons (.mk "innerBoundaryIs" none .nil) .nil))).tostring))) :=
  ⟨⟨rfl, (C4_missing_structure_fatal "" (.mk "Polygon" none .nil)).1 true rfl⟩,
    ((C4_missing_structure_fatal ""
        (.mk "Polygon" none
          (.cons (.mk "outerBoundaryIs" none
            (.cons (.mk "LinearRing" none
              (.cons (.mk "coordinates" (some "abc,def") .nil) .nil)) .nil))
          (.cons (.mk "innerBoundaryIs" none .nil) .nil)))).2.2
      (.mk "outerBoundaryIs" none
        (.cons (.mk "LinearRing" none
          (.cons (.mk "coordinates" (some "abc,def") .nil) .nil)) .nil))
      (.mk "LinearRing" none
        (.cons (.mk "coordinates" (some "abc,def") .nil) .nil))
      [] (.mk "innerBoundaryIs" none .nil) []
      rfl rfl rfl (by simp) rfl).1⟩

theorem collectInteriors_nonstrict_filterMap (ns : String) (element : Elem) :
    ∀ (l : List Elem), (∀ x ∈ l, (x.find (ns ++ "LinearRing")).isSome) →
      ∀ (acc : List Geo),
      collectInteriors ns false element l acc =
        .ok (acc ++ l.filterMap (nonStrictHole ns)) := by
  intro l
  induction l with
  | nil => intro _ acc; simp [collectInteriors]
  | cons x xs ih =>
    intro hall acc
    obtain ⟨ir, hir⟩ := Option.isSome_iff_exists.mp (hall x (List.mem_cons_self x xs))
    obtain ⟨r, hr⟩ := LinearRing_nonstrict_ok ns ir
    have htail := ih (fun y hy => hall y (List.mem_cons_of_mem x hy))
    simp only [collectInteriors, hir, hr]
    rcases r with _ | h
    · rw [htail acc, List.filterMap_cons]
      simp [nonStrictHole, hir, hr]
    · show collectInteriors ns false element xs
          (if h.truthy = true then acc ++ [h] else acc) =
        Except.ok (acc ++ List.filterMap (nonStrictHole ns) (x :: xs))
      by_cases ht : h.truthy
      · rw [if_pos ht, htail (acc ++ [h]), List.filterMap_cons]
        simp [nonStrictHole, hir, hr, ht]
      · rw [if_neg ht, htail acc, List.filterMap_cons]
        simp [nonStrictHole, hir, hr, ht]

/-- C7: for a Polygon element whose required outer-boundary/LinearRing
structure is present (and whose inner boundaries all hold LinearRing
children, so no structural error fires), non-strict decoding yields an
absent geometry (`ok none`, not an error) when the exterior ring decodes to
nothing usable, and every inner ring that decodes to nothing usable
contributes no hole — the polygon's holes are exactly the usable inner
rings, in order. -/
theorem C7_unusable_rings_skipped (ns : String) (element ob oring : Elem)
    (hob : element.find (ns ++ "outerBoundaryIs") = some ob)
    (horing : ob.find (ns ++ "LinearRing") = some oring)
    (hinner : ∀ x ∈ element.findall (ns ++ "innerBoundaryIs"),
      (x.find (ns ++ "LinearRing")).isSome) :
    (LinearRing_get_geometry ns oring false = .ok none →
      Polygon_get_geometry ns element false = .ok none) ∧
    (∀ ext, LinearRing_get_geometry ns oring false = .ok (some ext) →
      ext.truthy = true →
      Polygon_get_geometry ns element false =
        .ok (some (.polygon ext.ringCoords
          (((element.findall (ns ++ "innerBoundaryIs")).filterMap
            (nonStrictHole ns)).map Geo.ringCoords)))) := by
  constructor
  · intro hext
    simp only [Polygon_get_geometry, hob, horing, hext,
      collectInteriors_nonstrict_filterMap ns element
        (element.findall (ns ++ "innerBoundaryIs")) hinner []]
  · intro ext hext htruthy
    simp only [Polygon_get_geometry, hob, horing, hext,
      collectInteriors_nonstrict_filterMap ns element
        (element.findall (ns ++ "innerBoundaryIs")) hinner [], htruthy]
    simp

/-- C7 witness: a polygon whose exterior ring text is unparseable decodes
(non-strict) to an absent geometry, and a polygon with a good exterior and an
unusable inner ring decodes to a polygon with no holes. -/
theorem C7_unusable_rings_skipped_witness :
    Polygon_get_geometry ""
      (.mk "Polygon" none
        (.cons (.mk "outerBoundaryIs" none
          (.cons (.mk "LinearRing" none
            (.cons (.mk "coordinates" (some "abc,def") .nil) .nil)) .nil)) .nil))
      false = .ok none ∧
    Polygon_get_geometry ""
      (.mk "Polygon" none
        (.cons (.mk "outerBoundaryIs" none
          (.cons (.mk "LinearRing" none
            (.cons (.mk "coordinates" (some "0,0 1,0 1,1 0,0") .nil) .nil)) .nil))
        (.cons (.mk "innerBoundaryIs" none
          (.cons (.mk "LinearRing" none
            (.cons (.mk "coordinates" (some "abc,def") .nil) .nil)) .nil)) .nil)))
      false =
      .ok (some (.polygon [[⟨0, 0⟩, ⟨0, 0⟩], [⟨1, 0⟩, ⟨0, 0⟩], [⟨1, 0⟩, ⟨1, 0⟩],
        [⟨0, 0⟩, ⟨0, 0⟩]] (List.map Geo.ringCoords
          (List.filterMap (nonStrictHole "")
            ((Elem.mk "Polygon" none
              (.cons (.mk "outerBoundaryIs" none
                (.cons (.mk "LinearRing" none
                  (.cons (.mk "coordinates" (some "0,0 1,0 1,1 0,0") .nil) .nil)) .nil))
              (.cons (.mk "innerBoundaryIs" none
                (.cons (.mk "LinearRing" none
                  (.cons (.mk "coordinates" (some "abc,def") .nil) .nil)) .nil)) .nil))).findall
              ("" ++ "innerBoundaryIs")))))) ∧
    List.filterMap (nonStrictHole "")
      ((Elem.mk "Polygon" none
        (.cons (.mk "outerBoundaryIs" none
          (.cons (.mk "LinearRing" none
            (.cons (.mk "coordinates" (some "0,0 1,0 1,1 0,0") .nil) .nil)) .nil))
        (.cons (.mk "innerBoundaryIs" none
          (.cons (.mk "LinearRing" none
            (.cons (.mk "coordinates" (some "abc,def") .nil) .nil)) .nil)) .nil))).findall
        ("" ++ "innerBoundaryIs")) = [] :=
  ⟨(C7_unusable_rings_skipped ""
      (.mk "Polygon" none
        (.cons (.mk "outerBoundaryIs" none
          (.cons (.mk "LinearRing" none
            (.cons (.mk "coordinates" (some "abc,def") .nil) .nil)) .nil)) .nil))
      (.mk "outerBoundaryIs" none
        (.cons (.mk "LinearRing" none
          (.cons (.mk "coordinates" (some "abc,def") .nil) .nil)) .nil))
      (.mk "LinearRing" none
        (.cons (.mk "coordinates" (some "abc,def") .nil) .nil))
      rfl rfl (by decide)).1 rfl,
    (C7_unusable_rings_skipped ""
      (.mk "Polygon" none
        (.cons (.mk "outerBoundaryIs" none
          (.cons (.mk "LinearRing" none
            (.cons (.mk "coordinates" (some "0,0 1,0 1,1 0,0") .nil) .nil)) .nil))
        (.cons (.mk "innerBoundaryIs" none
          (.cons (.mk "LinearRing" none
            (.cons (.mk "coordinates" (some "abc,def") .nil) .nil)) .nil)) .nil)))
      (.mk "outerBoundaryIs" none
        (.cons (.mk "LinearRing" none
          (.cons (.mk "coordinates" (some "0,0 1,0 1,1 0,0") .nil) .nil)) .nil))
      (.mk "LinearRing" none
        (.cons (.mk "coordinates" (some "0,0 1,0 1,1 0,0") .nil) .nil))
      rfl rfl (by decide)).2
      (.linearRing [[⟨0, 0⟩, ⟨0, 0⟩], [⟨1, 0⟩, ⟨0, 0⟩], [⟨1, 0⟩, ⟨1, 0⟩],
        [⟨0, 0⟩, ⟨0, 0⟩]])
      rfl rfl,
    rfl⟩

/-! ### Claim C5: the kind dispatcher `create_multigeometry` -/

theorem dedup_of_constant {t : String} :
    ∀ (l : List String), l ≠ [] → (∀ x ∈ l, x = t) → l.dedup = [t] := by
  intro l
  induction l with
  | nil => intro h _; cases h rfl
  | cons x xs ih =>
    intro _ hall
    have hx : x = t := hall x (List.mem_cons_self x xs)
    subst hx
    rcases xs with _ | ⟨y, ys⟩
    · simp
    · have hy : y = x := hall y (List.mem_cons_of_mem x (List.mem_cons_self y ys))
      have hmem : x ∈ y :: ys := by rw [hy]; exact List.mem_cons_self x ys
      rw [List.dedup_cons_of_mem hmem]
      exact ih (List.cons_ne_nil y ys)
        (fun z hz => hall z (List.mem_cons_of_mem x hz))

theorem filterMap_asPoint : ∀ (cs : List Coord),
    (cs.map Geo.point).filterMap Geo.asPoint = cs := by
  intro cs
  induction cs with
  | nil => rfl
  | cons c l ih => simp [List.filterMap_cons, Geo.asPoint, ih]

theorem filterMap_asLineString : ∀ (ls : List (List Coord)),
    (ls.map Geo.lineString).filterMap Geo.asLineString = ls := by
  intro ls
  induction ls with
  | nil => rfl
  | cons c l ih => simp [List.filterMap_cons, Geo.asLineString, ih]

theorem filterMap_asPolygon : ∀ (ps : List (List Coord × List (List Coord))),
    (ps.map (fun p => Geo.polygon p.1 p.2)).filterMap Geo.asPolygon = ps := by
  intro ps
  induction ps with
  | nil => rfl
  | cons c l ih => simp [List.filterMap_cons, Geo.asPolygon, ih]

/-- C5: `create_multigeometry` returns `None` for an empty member list;
returns the matching homogeneous multi-geometry, preserving member order,
when every member shares one kind among Point, LineString, Polygon; and
returns a `GeometryCollection` preserving member order when kinds are mixed
or the shared kind is outside that set (e.g. rings or nested collections). -/
theorem C5_create_multigeometry_dispatch :
    create_multigeometry [] = none ∧
    (∀ (cs : List Coord), cs ≠ [] →
      create_multigeometry (cs.map Geo.point) = some (.multiPoint cs)) ∧
    (∀ (ls : List (List Coord)), ls ≠ [] →
      create_multigeometry (ls.map Geo.lineString) = some (.multiLineString ls)) ∧
    (∀ (ps : List (List Coord × List (List Coord))), ps ≠ [] →
      create_multigeometry (ps.map (fun p => Geo.polygon p.1 p.2)) =
        some (.multiPolygon ps)) ∧
    (∀ (gs : List Geo) (g1 g2 : Geo), g1 ∈ gs → g2 ∈ gs →
      g1.geom_type ≠ g2.geom_type →
      create_multigeometry gs = some (.geometryCollection gs)) ∧
    (∀ (gs : List Geo) (t : String), gs ≠ [] →
      (∀ g ∈ gs, g.geom_type = t) →
      t ≠ "Point" → t ≠ "LineString" → t ≠ "Polygon" →
      create_multigeometry gs = some (.geometryCollection gs)) := by
  refine ⟨rfl, fun cs hcs => ?_, fun ls hls => ?_, fun ps hps => ?_,
    fun gs g1 g2 h1 h2 hne => ?_, fun gs t hgs hall ht1 ht2 ht3 => ?_⟩
  · have hd : ((cs.map Geo.point).map Geo.geom_type).dedup = ["Point"] :=
      dedup_of_constant _ (by simpa using hcs)
        (fun x hx => by
          obtain ⟨g, hg, rfl⟩ := List.mem_map.mp hx
          obtain ⟨c, _, rfl⟩ := List.mem_map.mp hg
          rfl)
    simp only [create_multigeometry, hd, if_true]
    rw [filterMap_asPoint]
  · have hd : ((ls.map Geo.lineString).map Geo.geom_type).dedup = ["LineString"] :=
      dedup_of_constant _ (by simpa using hls)
        (fun x hx => by
          obtain ⟨g, hg, rfl⟩ := List.mem_map.mp hx
          obtain ⟨c, _, rfl⟩ := List.mem_map.mp hg
          rfl)
    simp only [create_multigeometry, hd, if_true]
    rw [filterMap_asLineString, if_neg (by decide)]
  · have hd : ((ps.map (fun p => Geo.polygon p.1 p.2)).map Geo.geom_type).dedup =
        ["Polygon"] :=
      dedup_of_constant _ (by simpa using hps)
        (fun x hx => by
          obtain ⟨g, hg, rfl⟩ := List.mem_map.mp hx
          obtain ⟨c, _, rfl⟩ := List.mem_map.mp hg
          rfl)
    simp only [create_multigeometry, hd, if_true]
    rw [filterMap_asPolygon, if_neg (by decide), if_neg (by decide)]
  · have hm1 : g1.geom_type ∈ (gs.map Geo.geom_type).dedup :=
      List.mem_dedup.mpr (List.mem_map_of_mem Geo.geom_type h1)
    have hm2 : g2.geom_type ∈ (gs.map Geo.geom_type).dedup :=
      List.mem_dedup.mpr (List.mem_map_of_mem Geo.geom_type h2)
    cases hd : (gs.map Geo.geom_type).dedup with
    | nil => rw [hd] at hm1; cases hm1
    | cons u rest =>
      cases rest with
      | nil =>
        rw [hd] at hm1 hm2
        simp only [List.mem_singleton] at hm1 hm2
        exact absurd (hm1.trans hm2.symm) hne
      | cons v rest2 => simp only [create_multigeometry, hd]
  · have hd : (gs.map Geo.geom_type).dedup = [t] :=
      dedup_of_constant _ (by simpa using hgs) (by simpa using hall)
    simp only [create_multigeometry, hd, if_neg ht1, if_neg ht2, if_neg ht3]

/-- C5 witness: the spec's three examples — two points make a MultiPoint, a
point and a line make a GeometryCollection, no members make nothing. -/
theorem C5_create_multigeometry_dispatch_witness :
    create_multigeometry [.point [⟨0, 0⟩, ⟨0, 0⟩], .point [⟨1, 0⟩, ⟨1, 0⟩]] =
      some (.multiPoint [[⟨0, 0⟩, ⟨0, 0⟩], [⟨1, 0⟩, ⟨1, 0⟩]]) ∧
    create_multigeometry [.point [⟨0, 0⟩, ⟨0, 0⟩],
        .lineString [[⟨0, 0⟩, ⟨0, 0⟩], [⟨1, 0⟩, ⟨1, 0⟩]]] =
      some (.geometryCollection [.point [⟨0, 0⟩, ⟨0, 0⟩],
        .lineString [[⟨0, 0⟩, ⟨0, 0⟩], [⟨1, 0⟩, ⟨1, 0⟩]]]) ∧
    create_multigeometry [] = none :=
  ⟨C5_create_multigeometry_dispatch.2.1 [[⟨0, 0⟩, ⟨0, 0⟩], [⟨1, 0⟩, ⟨1, 0⟩]]
      (by decide),
    C5_create_multigeometry_dispatch.2.2.2.2.1
      [.point [⟨0, 0⟩, ⟨0, 0⟩], .lineString [[⟨0, 0⟩, ⟨0, 0⟩], [⟨1, 0⟩, ⟨1, 0⟩]]]
      (.point [⟨0, 0⟩, ⟨0, 0⟩]) (.lineString [[⟨0, 0⟩, ⟨0, 0⟩], [⟨1, 0⟩, ⟨1, 0⟩]])
      (List.mem_cons_self _ _) (List.mem_cons_of_mem _ (List.mem_cons_self _ _))
      (by decide),
    C5_create_multigeometry_dispatch.1⟩

/-! ### Claim C6: multi-geometry decode grouping -/

theorem decodeMultiChildren_filter_map (ns : String) (strict : Bool) (T : String) :
    ∀ (children : ElemList),
      ((decodeMultiChildren ns strict children).filter
        (fun p => p.1.tag = T)).map Prod.snd =
      ((ElemList.toList children).filter (fun c => c.tag = T)).map
        (MultiGeometry_get_geometry ns strict)
  | .nil => rfl
  | .cons c cs => by
    have ih := decodeMultiChildren_filter_map ns strict T cs
    simp only [decodeMultiChildren, ElemList.toList, List.filter_cons]
    by_cases hc : c.tag = T
    · simp [hc, ih]
    · simp [hc, ih]

theorem collectTag_eq_decodeGroup (dec : Elem → Except DecodeErr (Option Geo)) :
    ∀ (es : List Elem) (acc : List Geo),
      collectTag (es.map dec) acc =
        (decodeGroup dec es).map (fun gs => acc ++ gs) := by
  intro es
  induction es with
  | nil => intro acc; simp [collectTag, decodeGroup, exceptMapM, Except.map]
  | cons e es ih =>
    intro acc
    simp only [List.map_cons, collectTag]
    cases hde : dec e with
    | error err => simp [decodeGroup, exceptMapM, hde, Except.map]
    | ok r =>
      cases hrest : exceptMapM dec es with
      | error err2 =>
        have hih := ih (match r with
          | some g => acc ++ [g]
          | none => acc)
        cases r with
        | some g =>
          simp only [hih, decodeGroup, exceptMapM, hde, hrest, Except.map]
        | none =>
          simp only [hih, decodeGroup, exceptMapM, hde, hrest, Except.map]
      | ok os =>
        cases r with
        | some g =>
          simp only [ih (acc ++ [g]), decodeGroup, exceptMapM, hde, hrest,
            Except.map, List.filterMap_cons]
          simp
        | none =>
          simp only [ih acc, decodeGroup, exceptMapM, hde, hrest,
            Except.map, List.filterMap_cons]
          rfl

/-- C6 (amended): multi-geometry decode collects child geometries grouped by
tag in the fixed preference order MultiGeometry (the container's own tag),
then Point, then LineString, then Polygon, then LinearRing — the
`map_to_kml` table has a fifth entry, LinearRing, which the claim omitted —
preserving document order within each tag group and concatenating the groups
in that fixed order rather than interleaving by document position; only
non-null decoded children are collected (in this version the Point and
LineString child decoders always return null), and the collected list is
passed to `create_multigeometry`. -/
theorem C6_grouped_decode (ns : String) (strict : Bool) (element : Elem) :
    MultiGeometry_get_geometry ns strict element =
      (do
        let g1 ← decodeGroup (MultiGeometry_get_geometry ns strict)
          (element.findall (ns ++ "MultiGeometry"))
        let g2 ← decodeGroup (fun e => Point_get_geometry ns e strict)
          (element.findall (ns ++ "Point"))
        let g3 ← decodeGroup (fun e => LineString_get_geometry ns e strict)
          (element.findall (ns ++ "LineString"))
        let g4 ← decodeGroup (fun e => Polygon_get_geometry ns e strict)
          (element.findall (ns ++ "Polygon"))
        let g5 ← decodeGroup (fun e => LinearRing_get_geometry ns e strict)
          (element.findall (ns ++ "LinearRing"))
        pure (create_multigeometry (g1 ++ g2 ++ g3 ++ g4 ++ g5))) := by
  rcases element with ⟨tg, tx, children⟩
  simp only [MultiGeometry_get_geometry, Elem.findall, Elem.childList,
    decodeMultiChildren_filter_map ns strict (ns ++ "MultiGeometry") children,
    collectTag_eq_decodeGroup]
  cases h1 : decodeGroup (MultiGeometry_get_geometry ns strict)
      ((ElemList.toList children).filter
        (fun c => c.tag = ns ++ "MultiGeometry")) with
  | error e1 => simp [Except.map, except_bind_error]
  | ok gs1 =>
    simp only [Except.map, except_bind_ok]
    cases h2 : decodeGroup (fun e => Point_get_geometry ns e strict)
        ((ElemList.toList children).filter (fun c => c.tag = ns ++ "Point")) with
    | error e2 => simp [Except.map, except_bind_error]
    | ok gs2 =>
      simp only [Except.map, except_bind_ok]
      cases h3 : decodeGroup (fun e => LineString_get_geometry ns e strict)
          ((ElemList.toList children).filter
            (fun c => c.tag = ns ++ "LineString")) with
      | error e3 => simp [Except.map, except_bind_error]
      | ok gs3 =>
        simp only [Except.map, except_bind_ok]
        cases h4 : decodeGroup (fun e => Polygon_get_geometry ns e strict)
            ((ElemList.toList children).filter
              (fun c => c.tag = ns ++ "Polygon")) with
        | error e4 => simp [Except.map, except_bind_error]
        | ok gs4 =>
          simp only [Except.map, except_bind_ok]
          cases h5 : decodeGroup (fun e => LinearRing_get_geometry ns e strict)
              ((ElemList.toList children).filter
                (fun c => c.tag = ns ++ "LinearRing")) with
          | error e5 => simp [Except.map, except_bind_error]
          | ok gs5 =>
            simp [Except.map, except_bind_ok, List.append_assoc]

/-- C6 counterexample: a MultiGeometry element whose only child is a
LinearRing.  Under the claim's four-tag preference order (own tag, Point,
LineString, Polygon) no child would be collected and the decode would yield
null; the code also decodes LinearRing children (the fifth `map_to_kml`
entry), so the decode yields a GeometryCollection holding the ring. -/
theorem C6_linear_ring_child_collected :
    MultiGeometry_get_geometry "" true
      (.mk "MultiGeometry" none
        (.cons (.mk "LinearRing" none
          (.cons (.mk "coordinates" (some "0,0 1,0 1,1 0,0") .nil) .nil)) .nil)) =
      .ok (some (.geometryCollection
        [.linearRing [[⟨0, 0⟩, ⟨0, 0⟩], [⟨1, 0⟩, ⟨0, 0⟩], [⟨1, 0⟩, ⟨1, 0⟩],
          [⟨0, 0⟩, ⟨0, 0⟩]]])) := by rfl

end FastKML
